import Mathlib

/-!
Verification of the decision and dialogue engine of an e-waste advisory
service (backend/app.py): the confidence-gated classification resolver
behind the /analyze endpoint, and the rule-based chat responder
generate_chat_reply behind /chat.

Modelling conventions:
* classifier scores (the entries of `preds`) are rationals;
* the JSON dictionaries (`class_indices.json`, `disposal_rules.json`) are
  association lists; a disposal-rule entry has one `Option` per field so
  that Python's per-field `dict.get(key, default)` is `Option.getD`;
* Python's substring test `needle in msg` is an executable infix check on
  character lists, and `str.strip` / `str.lower` are modelled on the
  character list of the string;
* `np.argmax` returns the first index attaining the maximum, modelled by
  `argmaxIdx`;
* the map link is an opaque string parameter (its formatting is outside
  the decision logic).
-/

namespace EwasteBot

/-- A disposal-rules entry as read from disposal_rules.json: every field may
be absent, mirroring dictionary lookups with per-field defaults
(`rules.get("display_name", class_name)` and so on in `analyze`). -/
structure DisposalRuleEntry where
  display_name : Option String
  category : Option String
  disposal_steps : Option (List String)
  hazards : Option String
  tips : Option String
  deriving DecidableEq, Repr

/-- The JSON body returned by /analyze (`jsonify({...})` in `analyze`). -/
structure Recommendation where
  product_name : String
  predicted_class : String
  confidence : ℚ
  category : String
  disposal_steps : List String
  hazards : String
  tips : String
  nearest_recycling_link : String
  deriving DecidableEq, Repr

/-- The rules store: `_disposal_rules`, keyed by class label. -/
abbrev RuleStore := List (String × DisposalRuleEntry)

/-- CONFIDENCE_THRESHOLD = 0.6 in app.py. -/
def CONFIDENCE_THRESHOLD : ℚ := 6/10

/-- Maximum of a list of scores (used to specify `np.argmax`). -/
def listMax : List ℚ → ℚ
  | [] => 0
  | [s] => s
  | s :: t :: rest => max s (listMax (t :: rest))

/-- First index attaining the maximum: the behaviour of `np.argmax(preds)`
(`int(np.argmax(preds))` in `analyze`), which returns the index of the first
occurrence of the maximal value. -/
def argmaxIdx : List ℚ → Nat
  | [] => 0
  | [_] => 0
  | s :: t :: rest => if listMax (t :: rest) ≤ s then 0 else argmaxIdx (t :: rest) + 1

/-- The top score `float(preds[best_idx])` in `analyze`. -/
def topScore (scores : List ℚ) : ℚ := scores.getD (argmaxIdx scores) 0

/-- The resolved class name `_index_to_class.get(str(best_idx), "Unknown")`
in `analyze`. -/
def resolvedLabel (idxToClass : List (Nat × String)) (scores : List ℚ) : String :=
  (List.lookup (argmaxIdx scores) idxToClass).getD "Unknown"

/-- The default for `_disposal_rules.get(class_name, {})`: an empty
dictionary, i.e. an entry with every field absent. -/
def emptyEntry : DisposalRuleEntry := ⟨none, none, none, none, none⟩

/-- The three fixed caution sentences of the uncertain branch of `analyze`. -/
def uncertainSteps : List String :=
  ["I am not fully confident about this item.",
   "If it is an electrical or electronic product, please avoid throwing it in normal dustbin.",
   "Take it to an authorised e-waste collection centre for guidance."]

/-- The decision logic of the /analyze endpoint (`analyze` in app.py), from
`preds` onwards: argmax over the scores, index-to-class resolution with
default "Unknown", the confidence gate, and the rule lookup with per-field
defaults.  `mapsLink` abstracts `build_maps_link(lat, lng)`. -/
def analyze (rules : RuleStore) (idxToClass : List (Nat × String))
    (mapsLink : String) (scores : List ℚ) : Recommendation :=
  let confidence := topScore scores
  let class_name := resolvedLabel idxToClass scores
  if confidence < CONFIDENCE_THRESHOLD ∨ class_name = "Unknown" then
    { product_name := "Uncertain item",
      predicted_class := class_name,
      confidence := confidence,
      category := "Possibly E-waste",
      disposal_steps := uncertainSteps,
      hazards := "Electronic items may contain hazardous materials.",
      tips := "Show this item to staff at a recycling centre.",
      nearest_recycling_link := mapsLink }
  else
    let e := (List.lookup class_name rules).getD emptyEntry
    { product_name := e.display_name.getD class_name,
      predicted_class := class_name,
      confidence := confidence,
      category := e.category.getD "E-waste",
      disposal_steps := e.disposal_steps.getD [],
      hazards := e.hazards.getD "",
      tips := e.tips.getD "",
      nearest_recycling_link := mapsLink }

/-- Claim C1: whenever the top score is strictly below the 0.6 threshold or
the resolved label is "Unknown" (at any confidence, including values at or
above the threshold), /analyze returns the fixed uncertain Recommendation:
category "Possibly E-waste", exactly the three fixed caution sentences, the
fixed hazards and tips sentences, with the predicted label and numeric
confidence still included. -/
theorem analyze_uncertain_branch (rules : RuleStore) (idxToClass : List (Nat × String))
    (mapsLink : String) (scores : List ℚ)
    (hcond : topScore scores < CONFIDENCE_THRESHOLD ∨ resolvedLabel idxToClass scores = "Unknown") :
    analyze rules idxToClass mapsLink scores =
      { product_name := "Uncertain item",
        predicted_class := resolvedLabel idxToClass scores,
        confidence := topScore scores,
        category := "Possibly E-waste",
        disposal_steps := uncertainSteps,
        hazards := "Electronic items may contain hazardous materials.",
        tips := "Show this item to staff at a recycling centre.",
        nearest_recycling_link := mapsLink } := by
  unfold analyze
  rw [if_pos hcond]

/-- Claim C1 witness: with an empty index map the label resolves to
"Unknown", and at confidence 0.9 (at or above the threshold) the uncertain
branch is still taken. -/
theorem analyze_uncertain_branch_witness :
    (topScore [(9:ℚ)/10] < CONFIDENCE_THRESHOLD ∨ resolvedLabel [] [(9:ℚ)/10] = "Unknown") ∧
    ¬ topScore [(9:ℚ)/10] < CONFIDENCE_THRESHOLD ∧
    (analyze [] [] "link" [(9:ℚ)/10]).category = "Possibly E-waste" ∧
    (analyze [] [] "link" [(9:ℚ)/10]).disposal_steps = uncertainSteps := by
  have h : resolvedLabel [] [(9:ℚ)/10] = "Unknown" := rfl
  have hr := analyze_uncertain_branch [] [] "link" [(9:ℚ)/10] (Or.inr h)
  refine ⟨Or.inr h, ?_, by rw [hr], by rw [hr]⟩
  simp only [topScore, argmaxIdx, CONFIDENCE_THRESHOLD, List.getD, List.get?, Option.getD]
  norm_num

/-- Claim C2: when the top score is at or above the threshold, the resolved
label is not "Unknown", and the label's rule entry carries all five fields,
the Recommendation's category, disposal_steps, hazards and tips equal that
entry's fields, and product_name equals the entry's display_name. -/
theorem analyze_confident_full_rule (rules : RuleStore) (idxToClass : List (Nat × String))
    (mapsLink : String) (scores : List ℚ) (dn cat : String) (steps : List String) (hz tp : String)
    (hconf : ¬ topScore scores < CONFIDENCE_THRESHOLD)
    (hlabel : resolvedLabel idxToClass scores ≠ "Unknown")
    (hlook : List.lookup (resolvedLabel idxToClass scores) rules =
      some ⟨some dn, some cat, some steps, some hz, some tp⟩) :
    analyze rules idxToClass mapsLink scores =
      { product_name := dn,
        predicted_class := resolvedLabel idxToClass scores,
        confidence := topScore scores,
        category := cat,
        disposal_steps := steps,
        hazards := hz,
        tips := tp,
        nearest_recycling_link := mapsLink } := by
  unfold analyze
  rw [if_neg (not_or.mpr ⟨hconf, hlabel⟩)]
  rw [hlook]
  rfl

/-- A concrete battery rule entry carrying every field, used as a witness
store (matching the example data of the specification). -/
def batteryEntry : DisposalRuleEntry :=
  ⟨some "Battery", some "Hazardous E-waste",
   some ["Do not incinerate", "Take to collection point"],
   some "Contains lead", some "Tape the terminals"⟩

/-- A witness rule store holding only the battery entry. -/
def batteryRules : RuleStore := [("battery", batteryEntry)]

/-- Claim C2 witness: scores {battery: 0.91}, threshold 0.6; the battery
rule's fields come through exactly. -/
theorem analyze_confident_full_rule_witness :
    ¬ topScore [(91:ℚ)/100] < CONFIDENCE_THRESHOLD ∧
    resolvedLabel [(0, "battery")] [(91:ℚ)/100] ≠ "Unknown" ∧
    analyze batteryRules [(0, "battery")] "link" [(91:ℚ)/100] =
      { product_name := "Battery",
        predicted_class := "battery",
        confidence := (91:ℚ)/100,
        category := "Hazardous E-waste",
        disposal_steps := ["Do not incinerate", "Take to collection point"],
        hazards := "Contains lead",
        tips := "Tape the terminals",
        nearest_recycling_link := "link" } := by
  have hconf : ¬ topScore [(91:ℚ)/100] < CONFIDENCE_THRESHOLD := by
    simp only [topScore, argmaxIdx, CONFIDENCE_THRESHOLD, List.getD, List.get?, Option.getD]
    norm_num
  have hlabel : resolvedLabel [(0, "battery")] [(91:ℚ)/100] = "battery" := rfl
  have hlook : List.lookup (resolvedLabel [(0, "battery")] [(91:ℚ)/100]) batteryRules =
      some ⟨some "Battery", some "Hazardous E-waste",
        some ["Do not incinerate", "Take to collection point"],
        some "Contains lead", some "Tape the terminals"⟩ := rfl
  have hr := analyze_confident_full_rule batteryRules [(0, "battery")] "link" [(91:ℚ)/100]
    "Battery" "Hazardous E-waste" ["Do not incinerate", "Take to collection point"]
    "Contains lead" "Tape the terminals" hconf (by rw [hlabel]; decide) hlook
  refine ⟨hconf, by rw [hlabel]; decide, ?_⟩
  rw [hr, hlabel]
  have hts : topScore [(91:ℚ)/100] = (91:ℚ)/100 := rfl
  rw [hts]

/-- Claim C6: when the top score is at or above the threshold and the
resolved label (not "Unknown") has no entry in the rule store, /analyze does
not fail: the Recommendation has product_name equal to the raw label,
category "E-waste", empty disposal_steps, and empty hazards and tips. -/
theorem analyze_missing_rule_defaults (rules : RuleStore) (idxToClass : List (Nat × String))
    (mapsLink : String) (scores : List ℚ)
    (hconf : ¬ topScore scores < CONFIDENCE_THRESHOLD)
    (hlabel : resolvedLabel idxToClass scores ≠ "Unknown")
    (hlook : List.lookup (resolvedLabel idxToClass scores) rules = none) :
    analyze rules idxToClass mapsLink scores =
      { product_name := resolvedLabel idxToClass scores,
        predicted_class := resolvedLabel idxToClass scores,
        confidence := topScore scores,
        category := "E-waste",
        disposal_steps := [],
        hazards := "",
        tips := "",
        nearest_recycling_link := mapsLink } := by
  unfold analyze
  rw [if_neg (not_or.mpr ⟨hconf, hlabel⟩)]
  rw [hlook]
  rfl

/-- Claim C6 witness: label "toaster" at confidence 0.8 with no rule entry
degrades gracefully to the documented defaults. -/
theorem analyze_missing_rule_defaults_witness :
    ¬ topScore [(8:ℚ)/10] < CONFIDENCE_THRESHOLD ∧
    resolvedLabel [(0, "toaster")] [(8:ℚ)/10] ≠ "Unknown" ∧
    List.lookup (resolvedLabel [(0, "toaster")] [(8:ℚ)/10]) batteryRules = none ∧
    analyze batteryRules [(0, "toaster")] "link" [(8:ℚ)/10] =
      { product_name := "toaster",
        predicted_class := "toaster",
        confidence := (8:ℚ)/10,
        category := "E-waste",
        disposal_steps := [],
        hazards := "",
        tips := "",
        nearest_recycling_link := "link" } := by
  have hconf : ¬ topScore [(8:ℚ)/10] < CONFIDENCE_THRESHOLD := by
    simp only [topScore, argmaxIdx, CONFIDENCE_THRESHOLD, List.getD, List.get?, Option.getD]
    norm_num
  have hlabel : resolvedLabel [(0, "toaster")] [(8:ℚ)/10] = "toaster" := rfl
  have hlook : List.lookup (resolvedLabel [(0, "toaster")] [(8:ℚ)/10]) batteryRules = none := by
    rw [hlabel]; rfl
  have hr := analyze_missing_rule_defaults batteryRules [(0, "toaster")] "link" [(8:ℚ)/10]
    hconf (by rw [hlabel]; decide) hlook
  refine ⟨hconf, by rw [hlabel]; decide, hlook, ?_⟩
  rw [hr, hlabel]
  have hts : topScore [(8:ℚ)/10] = (8:ℚ)/10 := rfl
  rw [hts]

/-- Claim C10: in the confident branch, defaults are applied per field, not
per entry: with the resolved label's rule entry present, each output field
is that entry's field when present and the documented default when absent,
independently of the other fields. -/
theorem analyze_field_defaults_per_field (rules : RuleStore) (idxToClass : List (Nat × String))
    (mapsLink : String) (scores : List ℚ) (e : DisposalRuleEntry)
    (hconf : ¬ topScore scores < CONFIDENCE_THRESHOLD)
    (hlabel : resolvedLabel idxToClass scores ≠ "Unknown")
    (hlook : List.lookup (resolvedLabel idxToClass scores) rules = some e) :
    (analyze rules idxToClass mapsLink scores).product_name =
      e.display_name.getD (resolvedLabel idxToClass scores) ∧
    (analyze rules idxToClass mapsLink scores).category = e.category.getD "E-waste" ∧
    (analyze rules idxToClass mapsLink scores).disposal_steps = e.disposal_steps.getD [] ∧
    (analyze rules idxToClass mapsLink scores).hazards = e.hazards.getD "" ∧
    (analyze rules idxToClass mapsLink scores).tips = e.tips.getD "" := by
  have hb : analyze rules idxToClass mapsLink scores =
      { product_name := e.display_name.getD (resolvedLabel idxToClass scores),
        predicted_class := resolvedLabel idxToClass scores,
        confidence := topScore scores,
        category := e.category.getD "E-waste",
        disposal_steps := e.disposal_steps.getD [],
        hazards := e.hazards.getD "",
        tips := e.tips.getD "",
        nearest_recycling_link := mapsLink } := by
    unfold analyze
    rw [if_neg (not_or.mpr ⟨hconf, hlabel⟩)]
    rw [hlook]
    rfl
  rw [hb]
  exact ⟨rfl, rfl, rfl, rfl, rfl⟩

/-- A mixed rule entry: category and hazards present, the other fields
absent. -/
def mixedEntry : DisposalRuleEntry :=
  ⟨none, some "Hazardous E-waste", none, some "Contains mercury", none⟩

/-- Claim C10 witness: a mixed entry for label "lamp" keeps its present
fields (category, hazards) and defaults only the absent ones. -/
theorem analyze_field_defaults_per_field_witness :
    ¬ topScore [(7:ℚ)/10] < CONFIDENCE_THRESHOLD ∧
    List.lookup (resolvedLabel [(0, "lamp")] [(7:ℚ)/10]) [("lamp", mixedEntry)] = some mixedEntry ∧
    (analyze [("lamp", mixedEntry)] [(0, "lamp")] "link" [(7:ℚ)/10]).product_name = "lamp" ∧
    (analyze [("lamp", mixedEntry)] [(0, "lamp")] "link" [(7:ℚ)/10]).category = "Hazardous E-waste" ∧
    (analyze [("lamp", mixedEntry)] [(0, "lamp")] "link" [(7:ℚ)/10]).disposal_steps = [] ∧
    (analyze [("lamp", mixedEntry)] [(0, "lamp")] "link" [(7:ℚ)/10]).hazards = "Contains mercury" ∧
    (analyze [("lamp", mixedEntry)] [(0, "lamp")] "link" [(7:ℚ)/10]).tips = "" := by
  have hconf : ¬ topScore [(7:ℚ)/10] < CONFIDENCE_THRESHOLD := by
    simp only [topScore, argmaxIdx, CONFIDENCE_THRESHOLD, List.getD, List.get?, Option.getD]
    norm_num
  have hlabel : resolvedLabel [(0, "lamp")] [(7:ℚ)/10] = "lamp" := rfl
  have hlook : List.lookup (resolvedLabel [(0, "lamp")] [(7:ℚ)/10]) [("lamp", mixedEntry)] =
      some mixedEntry := by rw [hlabel]; rfl
  have hr := analyze_field_defaults_per_field [("lamp", mixedEntry)] [(0, "lamp")] "link"
    [(7:ℚ)/10] mixedEntry hconf (by rw [hlabel]; decide) hlook
  refine ⟨hconf, hlook, ?_, ?_, ?_, ?_, ?_⟩
  · rw [hr.1, hlabel]; rfl
  · rw [hr.2.1]; rfl
  · rw [hr.2.2.1]; rfl
  · rw [hr.2.2.2.1]; rfl
  · rw [hr.2.2.2.2]; rfl

/-- Python whitespace test for `str.strip` (the characters that matter for
chat messages). -/
def isSpaceChar (c : Char) : Bool := c == ' ' || c == '\t' || c == '\n' || c == '\r'

/-- Drop leading whitespace characters. -/
def dropSpaces : List Char → List Char
  | [] => []
  | c :: rest => if isSpaceChar c then dropSpaces rest else c :: rest

/-- Python `str.strip`: drop whitespace at both ends. -/
def trimStr (s : String) : String :=
  String.mk (dropSpaces (dropSpaces s.data).reverse).reverse

/-- Python `str.lower` (over the ASCII letters used by the keyword sets). -/
def lowerStr (s : String) : String := String.mk (s.data.map Char.toLower)

/-- The normalised message: `user_message.strip().lower()` in
`generate_chat_reply`. -/
def normMsg (s : String) : String := lowerStr (trimStr s)

/-- Boolean prefix test on character lists. -/
def prefixOfB : List Char → List Char → Bool
  | [], _ => true
  | _ :: _, [] => false
  | a :: as, b :: bs => a == b && prefixOfB as bs

/-- Boolean infix test on character lists. -/
def infixOfB (needle : List Char) : List Char → Bool
  | [] => needle.isEmpty
  | c :: rest => prefixOfB needle (c :: rest) || infixOfB needle rest

/-- Python's substring test `needle in haystack` on strings. -/
def containsStr (haystack needle : String) : Bool := infixOfB needle.data haystack.data

/-- Python `any(word in msg for word in words)`. -/
def anyKeyword (msg : String) (words : List String) : Bool :=
  words.any (fun w => containsStr msg w)

/-- Python truthiness of an optional string (`if last_name:` and the
`last_class and ...` guard). -/
def optTruthy : Option String → Bool
  | some s => !(s == "")
  | none => false

/-- Greeting keywords (cascade rule 1). -/
def greetWords : List String :=
  ["hello", "hi", "hi!", "hey", "good morning", "good afternoon", "good evening"]

/-- Thanks / bye keywords (cascade rule 2). -/
def thanksWords : List String :=
  ["thank", "thanks", "thank you", "tnx", "thx", "bye", "goodbye"]

/-- Off-topic keywords (cascade rule 4, `irrelevant_keywords`). -/
def irrelevantKeywords : List String :=
  ["cricket", "football", "movie", "actor", "actress", "politics", "song",
   "story", "math", "science", "chemistry", "physics", "coding", "python",
   "java", "food", "recipe", "love", "relationship", "weather", "news"]

/-- Danger words of cascade rule 6. -/
def dangerWords : List String := ["dangerous", "harmful", "bad"]

/-- Dustbin keywords (cascade rule 7). -/
def dustbinWords : List String :=
  ["dustbin", "trash", "garbage", "normal bin", "normal dustbin"]

/-- Disposal-question keywords of the context branch (cascade rule 10). -/
def disposeWords : List String :=
  ["how", "dispose", "throw", "recycle", "get rid", "what should i do"]

/-- Safety-question keywords of the context branch (cascade rule 10). -/
def safetyWords : List String := ["safe", "harmful", "dangerous", "risk", "toxic"]

/-- Loosely-related keywords (cascade rule 11). -/
def looseWords : List String :=
  ["waste", "e-waste", "electronic", "battery", "mobile", "laptop", "tv",
   "television", "printer", "microwave", "washing machine", "pcb"]

/-- Rule 1 matcher. -/
def matchGreeting (msg : String) : Bool := anyKeyword msg greetWords

/-- Rule 2 matcher. -/
def matchThanks (msg : String) : Bool := anyKeyword msg thanksWords

/-- Rule 3 matcher. -/
def matchWho (msg : String) : Bool :=
  containsStr msg "who are you" || containsStr msg "what can you do" || containsStr msg "who r u"

/-- Rule 4 matcher. -/
def matchOffTopic (msg : String) : Bool := anyKeyword msg irrelevantKeywords

/-- Rule 5 matcher. -/
def matchWhatIs (msg : String) : Bool :=
  containsStr msg "what is e-waste" || (containsStr msg "what" && containsStr msg "e waste")

/-- Rule 6 matcher. -/
def matchWhyDanger (msg : String) : Bool :=
  (containsStr msg "why" && containsStr msg "e-waste") ||
  (containsStr msg "e-waste" && anyKeyword msg dangerWords)

/-- Rule 7 matcher. -/
def matchDustbin (msg : String) : Bool := anyKeyword msg dustbinWords

/-- Rule 8 matcher. -/
def matchExamples (msg : String) : Bool :=
  containsStr msg "examples of e-waste" ||
  (containsStr msg "what" && containsStr msg "e-waste items") ||
  containsStr msg "types of e-waste"

/-- Rule 9 matcher. -/
def matchRecycling (msg : String) : Bool :=
  containsStr msg "recycling centre" || containsStr msg "recycle center" ||
  containsStr msg "where to give" || containsStr msg "where can i give"

/-- Rule 10 guard: `last_class and _disposal_rules and last_class in
_disposal_rules`. -/
def contextCond (rules : RuleStore) (lastClass : Option String) : Bool :=
  optTruthy lastClass && !rules.isEmpty && (List.lookup (lastClass.getD "") rules).isSome

/-- Rule 11 matcher. -/
def matchLoose (msg : String) : Bool := anyKeyword msg looseWords

/-- The generic greeting reply. -/
def greetGeneric : String :=
  "Hello! 😊 I am your e-waste assistant. You can upload an image of an electronic item and ask me how to dispose it safely."

/-- The personalised greeting reply. -/
def greetNamed (n : String) : String :=
  "Hello! 😊 I recently detected <b>" ++ n ++ "</b>. You can ask me how to dispose it safely or any e-waste question."

/-- The greeting branch of `generate_chat_reply` (rule 1): personalised when
`last_name` is truthy, generic otherwise. -/
def greetingReply (lastName : Option String) : String :=
  if optTruthy lastName then greetNamed (lastName.getD "") else greetGeneric

/-- The thanks / bye reply (rule 2). -/
def thanksReply : String :=
  "You\x27re welcome! ♻️ If you have more questions about e-waste or another item, just ask."

/-- The self-description reply (rule 3). -/
def whoReply : String :=
  "I am an e-waste assistant chatbot. I can:<br>- Identify many electronic items from an image (like battery, mobile, printer, TV, etc.)<br>- Tell you how to dispose them safely<br>- Explain why e-waste is dangerous<br>- Help you find nearby recycling centres using Google Maps."

/-- The off-topic refusal (rule 4). -/
def offTopicReply : String :=
  "Sorry, I’m just an e-waste chatbot 😅.<br>I can help you with identifying electronics and teaching you how to dispose them safely.<br><br>For other questions, you can contact my elder brother <b>ChatGPT</b> — he knows everything! 🤖✨"

/-- The definitional reply (rule 5). -/
def whatIsReply : String :=
  "E-waste (electronic waste) is any discarded electrical or electronic item, such as mobiles, laptops, TVs, batteries, chargers, printers, and so on. These items contain metals, plastics and chemicals that can pollute soil and water and can harm human health if they are dumped or burnt instead of being recycled properly."

/-- The hazard-rationale reply (rule 6). -/
def whyDangerReply : String :=
  "E-waste is dangerous because it often contains hazardous substances like lead, mercury, cadmium and brominated flame retardants. If e-waste is thrown in normal dustbins, dumped or burnt, these substances can leak into the air, soil and water. This can cause health problems (like nerve damage and cancers) and long-term environmental damage."

/-- The dustbin reply (rule 7). -/
def dustbinReply : String :=
  "Electronic items should not be thrown in the normal dustbin. They contain metals, chemicals and sometimes batteries that can leak or catch fire. Instead, always hand over e-waste to an authorised e-waste collection centre or recycler so that useful materials can be recovered safely."

/-- The examples reply (rule 8). -/
def examplesReply : String :=
  "Common examples of e-waste include:<br>- Mobile phones, tablets, laptops, computers<br>- Keyboards, mouse, chargers, cables, earphones<br>- Televisions, printers, scanners, media players<br>- Microwaves, washing machines and other appliances with electronics<br>- Batteries and circuit boards (PCBs)<br>All of these should be sent to e-waste recyclers instead of normal dustbins."

/-- The recycling-centre reply (rule 9). -/
def recyclingReply : String :=
  "You can use the \x27Find nearest recycling centre\x27 link I provide after analyzing an image. It opens Google Maps with nearby e-waste recycling or collection centres. You can also search in Google Maps for \x27e-waste recycling centre\x27 or \x27battery recycling\x27 in your city."

/-- The loosely-related reply (rule 11). -/
def looseReply : String :=
  "I may not fully understand the exact question, but I can help with e-waste disposal. Try asking things like:<br>- How to dispose this item?<br>- Is it safe to throw this in the dustbin?<br>- Why is e-waste dangerous?<br>Also, you can upload an image if you want me to detect a specific product."

/-- The terminal fallback reply (rule 12). -/
def fallbackReply : String :=
  "Sorry, I am mainly designed to talk about e-waste and electronic items. Please upload an image of an electronic product (like a battery, mobile, printer, TV, etc.) and then ask me how to dispose it safely. For other kinds of questions, you can ask my elder brother <b>ChatGPT</b> 😊."

/-- The `<li>` items built by the `for s in steps` loop of the context
branch. -/
def stepsHtml (steps : List String) : String :=
  String.join (steps.map (fun s => "<li>" ++ s ++ "</li>"))

/-- The disposal answer of the context branch. -/
def disposeReply (name : String) (steps : List String) (hazards tips : String) : String :=
  "For <b>" ++ name ++ "</b>, you should dispose it as follows:<br><ul>" ++ stepsHtml steps ++ "</ul>"
    ++ (if hazards == "" then "" else "<br><b>Hazards:</b> " ++ hazards)
    ++ (if tips == "" then "" else "<br><b>Tips:</b> " ++ tips)

/-- The safety answer of the context branch. -/
def safetyReply (name hazards : String) : String :=
  "<b>" ++ name ++ "</b> is considered e-waste. "
    ++ (if hazards == "" then "" else "Main hazards: " ++ hazards ++ " ")
    ++ "So please do not throw it in normal dustbin. Use an authorised e-waste centre."

/-- The "what is this" answer of the context branch. -/
def whatIsThisReply (name cat : String) : String :=
  "This item was detected as <b>" ++ name ++ "</b>, which belongs to the category: " ++ cat ++ "."

/-- The generic item summary of the context branch. -/
def genericItemReply (name : String) (steps : List String) : String :=
  "You are asking about <b>" ++ name ++ "</b>. "
    ++ (if steps.isEmpty then
          "It should be treated as e-waste and handed over to an authorised recycler."
        else
          "Here is a short summary of how to dispose it:<br><ul>" ++ stepsHtml (steps.take 3) ++ "</ul>")

/-- The context-dependent branch of `generate_chat_reply` (cascade rule 10):
resolve the remembered item's rule entry and answer the nested cascade of
dispose / safety / identity questions, with a generic item summary last. -/
def contextReply (rules : RuleStore) (lastClass : String) (lastName : Option String)
    (msg : String) : String :=
  let e := (List.lookup lastClass rules).getD emptyEntry
  let name := if optTruthy lastName then lastName.getD "" else e.display_name.getD lastClass
  let steps := e.disposal_steps.getD []
  let hazards := e.hazards.getD ""
  let tips := e.tips.getD ""
  if anyKeyword msg disposeWords then disposeReply name steps hazards tips
  else if anyKeyword msg safetyWords then safetyReply name hazards
  else if containsStr msg "what is this" || containsStr msg "what item" || containsStr msg "what product" then
    whatIsThisReply name (e.category.getD "E-waste")
  else genericItemReply name steps

/-- The rule-based chatbot `generate_chat_reply` of app.py: normalise the
message, then evaluate the intent cascade top to bottom, first match wins,
ending in the terminal fallback. -/
def generate_chat_reply (rules : RuleStore) (userMessage : String)
    (lastClass lastName : Option String) : String :=
  let msg := normMsg userMessage
  if matchGreeting msg then greetingReply lastName
  else if matchThanks msg then thanksReply
  else if matchWho msg then whoReply
  else if matchOffTopic msg then offTopicReply
  else if matchWhatIs msg then whatIsReply
  else if matchWhyDanger msg then whyDangerReply
  else if matchDustbin msg then dustbinReply
  else if matchExamples msg then examplesReply
  else if matchRecycling msg then recyclingReply
  else if contextCond rules lastClass then contextReply rules (lastClass.getD "") lastName msg
  else if matchLoose msg then looseReply
  else fallbackReply

/-- A string with a nonempty left part of an append is nonempty. -/
theorem append_len_pos (a b : String) (h : 0 < a.length) : 0 < (a ++ b).length := by
  rw [String.length_append]
  omega

/-- The boolean prefix test agrees with `List.IsPrefix`. -/
theorem prefixOfB_iff (n h : List Char) : prefixOfB n h = true ↔ n <+: h := by
  induction n generalizing h with
  | nil => simp [prefixOfB]
  | cons a as ih =>
    cases h with
    | nil => simp [prefixOfB]
    | cons b bs => simp [prefixOfB, ih, List.cons_prefix_cons]

/-- The boolean infix test agrees with `List.IsInfix`. -/
theorem infixOfB_iff (n h : List Char) : infixOfB n h = true ↔ n <:+: h := by
  induction h with
  | nil => simp [infixOfB, List.isEmpty_iff, List.infix_nil]
  | cons c rest ih => simp [infixOfB, prefixOfB_iff, ih, List.infix_cons_iff]

/-- Substring containment is transitive through an intermediate string. -/
theorem containsStr_mono (m a b : String) (hab : containsStr b a = true)
    (h : containsStr m b = true) : containsStr m a = true := by
  unfold containsStr at *
  rw [infixOfB_iff] at *
  exact hab.trans h

/-- A message containing "hi" matches the greeting keyword set. -/
theorem matchGreeting_of_hi (msg : String) (h : containsStr msg "hi" = true) :
    matchGreeting msg = true := by
  unfold matchGreeting anyKeyword
  rw [List.any_eq_true]
  exact ⟨"hi", by simp [greetWords], h⟩

/-- The first character of an append is the first character of a nonempty
left part. -/
theorem strHead_append (a b : String) (c : Char) (h : a.data.head? = some c) :
    (a ++ b).data.head? = some c := by
  have hd : (a ++ b).data = a.data ++ b.data := rfl
  rw [hd]
  cases ha : a.data with
  | nil => rw [ha] at h; simp at h
  | cons x xs => rw [ha] at h; simpa using h

/-- A greeting reply always starts with the letter H. -/
theorem greetingReply_head (ln : Option String) : (greetingReply ln).data.head? = some 'H' := by
  unfold greetingReply greetNamed
  split
  · exact strHead_append _ _ _ (strHead_append _ _ _ rfl)
  · rfl

/-- A greeting reply is never the "what is this" answer of the context
branch (they start with different characters). -/
theorem greeting_ne_whatIsThis (ln : Option String) (nm ct : String) :
    greetingReply ln ≠ whatIsThisReply nm ct := by
  intro he
  have h1 : (greetingReply ln).data.head? = some 'H' := greetingReply_head ln
  have h2 : (whatIsThisReply nm ct).data.head? = some 'T' := by
    unfold whatIsThisReply
    exact strHead_append _ _ _ (strHead_append _ _ _ (strHead_append _ _ _ rfl))
  rw [he, h2] at h1
  simp at h1

/-- Greeting replies are nonempty. -/
theorem greetingReply_len (ln : Option String) : 0 < (greetingReply ln).length := by
  unfold greetingReply greetNamed
  split
  · apply append_len_pos
    apply append_len_pos
    decide
  · decide

/-- Context-branch replies are nonempty. -/
theorem contextReply_len (rules : RuleStore) (lc : String) (ln : Option String)
    (msg : String) : 0 < (contextReply rules lc ln msg).length := by
  unfold contextReply disposeReply safetyReply whatIsThisReply genericItemReply
  repeat' split
  all_goals repeat' apply append_len_pos
  all_goals decide

/-- Both branches of `analyze` report the resolved label as
predicted_class. -/
theorem analyze_predicted_class (rules : RuleStore) (idxToClass : List (Nat × String))
    (mapsLink : String) (scores : List ℚ) :
    (analyze rules idxToClass mapsLink scores).predicted_class =
      resolvedLabel idxToClass scores := by
  unfold analyze
  dsimp only
  split
  · rfl
  · rfl

/-- Every score is bounded by the list maximum. -/
theorem le_listMax (scores : List ℚ) (s : ℚ) (hs : s ∈ scores) : s ≤ listMax scores := by
  induction scores with
  | nil => cases hs
  | cons a rest ih =>
    cases rest with
    | nil =>
      rw [List.mem_singleton] at hs
      rw [hs]
      exact le_of_eq rfl
    | cons b bs =>
      rcases List.mem_cons.mp hs with h | h
      · rw [h]
        exact le_max_left _ _
      · exact le_trans (ih h) (le_max_right _ _)

/-- The score at the argmax index is the list maximum. -/
theorem topScore_eq_listMax (scores : List ℚ) (h : scores ≠ []) :
    topScore scores = listMax scores := by
  induction scores with
  | nil => exact absurd rfl h
  | cons a rest ih =>
    cases rest with
    | nil => rfl
    | cons b bs =>
      unfold topScore argmaxIdx
      split
      · rename_i hle
        rw [List.getD_cons_zero]
        show a = listMax (a :: b :: bs)
        rw [show listMax (a :: b :: bs) = max a (listMax (b :: bs)) from rfl]
        exact (max_eq_left hle).symm
      · rename_i hlt
        rw [List.getD_cons_succ]
        have hne : (b :: bs : List ℚ) ≠ [] := by simp
        have : List.getD (b :: bs) (argmaxIdx (b :: bs)) 0 = listMax (b :: bs) := ih hne
        rw [this]
        rw [show listMax (a :: b :: bs) = max a (listMax (b :: bs)) from rfl]
        exact (max_eq_right (le_of_lt (lt_of_not_le hlt))).symm

/-- Every index strictly before the argmax holds a strictly smaller score:
`np.argmax` returns the first index attaining the maximum. -/
theorem argmax_first_strict (scores : List ℚ) :
    ∀ j, j < argmaxIdx scores → scores.getD j 0 < listMax scores := by
  induction scores with
  | nil => intro j hj; simp [argmaxIdx] at hj
  | cons a rest ih =>
    cases rest with
    | nil => intro j hj; simp [argmaxIdx] at hj
    | cons b bs =>
      intro j hj
      unfold argmaxIdx at hj
      split at hj
      · omega
      · rename_i hlt
        have ha : a < listMax (b :: bs) := lt_of_not_le hlt
        rw [show listMax (a :: b :: bs) = max a (listMax (b :: bs)) from rfl]
        cases j with
        | zero =>
          rw [List.getD_cons_zero]
          exact lt_max_of_lt_right ha
        | succ k =>
          rw [List.getD_cons_succ]
          have hk : k < argmaxIdx (b :: bs) := by omega
          exact lt_max_of_lt_right (ih k hk)

/-- Claim C3 counterexample: "hi movie dispose" contains the off-topic
keyword "movie" and the context keyword "dispose", and last_class "battery"
is present in the store, yet the reply is the greeting (the greeting
matcher fires on the substring "hi" inside the message), not the off-topic
refusal. -/
theorem chat_offtopic_priority_cex :
    containsStr (normMsg "hi movie dispose") "movie" = true ∧
    containsStr (normMsg "hi movie dispose") "dispose" = true ∧
    List.lookup "battery" batteryRules = some batteryEntry ∧
    generate_chat_reply batteryRules "hi movie dispose" (some "battery") none = greetGeneric ∧
    generate_chat_reply batteryRules "hi movie dispose" (some "battery") none ≠ offTopicReply := by
  decide

/-- Claim C3 (amended): provided the message matches none of the earlier
matchers (greeting, thanks, self-description), a message containing an
off-topic keyword returns the fixed off-topic refusal regardless of any
context-answerable keyword, last_class or last_name: the off-topic matcher
(cascade rule 4) takes priority over the context-dependent branch (cascade
rule 10). -/
theorem chat_offtopic_priority (rules : RuleStore) (userMessage : String)
    (lastClass lastName : Option String)
    (h1 : matchGreeting (normMsg userMessage) = false)
    (h2 : matchThanks (normMsg userMessage) = false)
    (h3 : matchWho (normMsg userMessage) = false)
    (h4 : matchOffTopic (normMsg userMessage) = true) :
    generate_chat_reply rules userMessage lastClass lastName = offTopicReply := by
  unfold generate_chat_reply
  dsimp only
  simp [h1, h2, h3, h4]

/-- Claim C3 witness: "movie dispose" (no greeting substring) with
last_class "battery" present in the store returns the off-topic refusal
even though the context branch would have answered "dispose". -/
theorem chat_offtopic_priority_witness :
    matchOffTopic (normMsg "movie dispose") = true ∧
    containsStr (normMsg "movie dispose") "dispose" = true ∧
    contextCond batteryRules (some "battery") = true ∧
    generate_chat_reply batteryRules "movie dispose" (some "battery") none = offTopicReply := by
  refine ⟨by decide, by decide, by decide, ?_⟩
  exact chat_offtopic_priority batteryRules "movie dispose" (some "battery") none
    (by decide) (by decide) (by decide) (by decide)

/-- Claim C4 counterexample: the message "How do I throw away this item?"
with last_class "battery" (steps "Do not incinerate" / "Take to collection
point", hazards "Contains lead") does not produce the disposal answer: the
greeting matcher fires on the substring "hi" inside "this", so the reply is
the generic greeting and contains neither the steps nor the hazards
sentence. -/
theorem chat_context_example_cex :
    List.lookup "battery" batteryRules = some batteryEntry ∧
    generate_chat_reply batteryRules "How do I throw away this item?" (some "battery") none = greetGeneric ∧
    containsStr (generate_chat_reply batteryRules "How do I throw away this item?" (some "battery") none)
      "Do not incinerate" = false ∧
    containsStr (generate_chat_reply batteryRules "How do I throw away this item?" (some "battery") none)
      "Contains lead" = false := by
  decide

/-- Claim C4 (amended): for the message "How do I throw away that item?"
(which avoids the greeting substring) with last_class "battery" whose entry
has disposal_steps "Do not incinerate" / "Take to collection point" and
hazards "Contains lead", the reply contains both steps as list items and
the literal hazards sentence. -/
theorem chat_context_example_amended :
    containsStr (generate_chat_reply batteryRules "How do I throw away that item?" (some "battery") none)
      "<li>Do not incinerate</li>" = true ∧
    containsStr (generate_chat_reply batteryRules "How do I throw away that item?" (some "battery") none)
      "<li>Take to collection point</li>" = true ∧
    containsStr (generate_chat_reply batteryRules "How do I throw away that item?" (some "battery") none)
      "Contains lead" = true := by
  decide

/-- Claim C5 counterexample: with scores 0.7 and 0.7 tied for the maximum
and labels "zebra" (index 0) and "apple" (index 1), resolution picks
"zebra", the first-encountered label, although "apple" is lexicographically
smaller. -/
theorem analyze_tie_lex_cex :
    List.getD [(7:ℚ)/10, (7:ℚ)/10] 0 0 = List.getD [(7:ℚ)/10, (7:ℚ)/10] 1 0 ∧
    (analyze [] [(0, "zebra"), (1, "apple")] "link" [(7:ℚ)/10, (7:ℚ)/10]).predicted_class = "zebra" ∧
    ("apple" : String).data < ("zebra" : String).data := by
  refine ⟨rfl, ?_, by decide⟩
  rw [analyze_predicted_class]
  have hidx : argmaxIdx [(7:ℚ)/10, (7:ℚ)/10] = 0 := by
    norm_num [argmaxIdx, listMax]
  unfold resolvedLabel
  rw [hidx]
  rfl

/-- Claim C5 (amended): classification resolution selects a label attaining
the maximum score, and ties are resolved deterministically by the
first-encountered index: the predicted class is the label of `argmaxIdx`,
the score there bounds every score, and every earlier index holds a
strictly smaller score. -/
theorem analyze_argmax_first_encounter (rules : RuleStore) (idxToClass : List (Nat × String))
    (mapsLink : String) (scores : List ℚ) :
    (analyze rules idxToClass mapsLink scores).predicted_class =
      (List.lookup (argmaxIdx scores) idxToClass).getD "Unknown" ∧
    (∀ s ∈ scores, s ≤ topScore scores) ∧
    (∀ j, j < argmaxIdx scores → scores.getD j 0 < topScore scores) := by
  refine ⟨analyze_predicted_class rules idxToClass mapsLink scores, ?_, ?_⟩
  · intro s hs
    have hne : scores ≠ [] := by
      intro he
      rw [he] at hs
      cases hs
    rw [topScore_eq_listMax scores hne]
    exact le_listMax scores s hs
  · intro j hj
    have hne : scores ≠ [] := by
      intro he
      rw [he] at hj
      simp [argmaxIdx] at hj
    rw [topScore_eq_listMax scores hne]
    exact argmax_first_strict scores j hj

/-- Claim C5 amended-theorem witness: scores 0.7 and 0.3 resolve to the
label at index 0 and the top score bounds the other score. -/
theorem analyze_argmax_first_encounter_witness :
    (analyze [] [(0, "zebra"), (1, "apple")] "L" [(7:ℚ)/10, (3:ℚ)/10]).predicted_class = "zebra" ∧
    (3:ℚ)/10 ≤ topScore [(7:ℚ)/10, (3:ℚ)/10] := by
  have h := analyze_argmax_first_encounter [] [(0, "zebra"), (1, "apple")] "L" [(7:ℚ)/10, (3:ℚ)/10]
  constructor
  · rw [h.1]
    have hidx : argmaxIdx [(7:ℚ)/10, (3:ℚ)/10] = 0 := by
      norm_num [argmaxIdx, listMax]
    rw [hidx]
    rfl
  · exact h.2.1 ((3:ℚ)/10) (by simp)

/-- Claim C7: the context branch is entered only when last_class is
non-empty and present in the rule store; with a last_class absent from the
store the reply equals the reply with no context at all (so nothing can
fail), and when no earlier matcher fires it falls through to the
loosely-related prompt or the terminal fallback. -/
theorem chat_absent_class_falls_through (rules : RuleStore) (userMessage : String)
    (lastName : Option String) (lc : String)
    (hlk : List.lookup lc rules = none) :
    generate_chat_reply rules userMessage (some lc) lastName =
      generate_chat_reply rules userMessage none lastName ∧
    contextCond rules (some lc) = false ∧
    (matchGreeting (normMsg userMessage) = false →
     matchThanks (normMsg userMessage) = false →
     matchWho (normMsg userMessage) = false →
     matchOffTopic (normMsg userMessage) = false →
     matchWhatIs (normMsg userMessage) = false →
     matchWhyDanger (normMsg userMessage) = false →
     matchDustbin (normMsg userMessage) = false →
     matchExamples (normMsg userMessage) = false →
     matchRecycling (normMsg userMessage) = false →
     (generate_chat_reply rules userMessage (some lc) lastName = looseReply ∨
      generate_chat_reply rules userMessage (some lc) lastName = fallbackReply)) := by
  have hcc : contextCond rules (some lc) = false := by
    simp [contextCond, hlk]
  have hcn : contextCond rules none = false := rfl
  refine ⟨?_, hcc, ?_⟩
  · unfold generate_chat_reply
    dsimp only
    rw [hcc, hcn]
    simp
  · intro h1 h2 h3 h4 h5 h6 h7 h8 h9
    unfold generate_chat_reply
    dsimp only
    simp only [h1, h2, h3, h4, h5, h6, h7, h8, h9, hcc, Bool.false_eq_true, if_false]
    cases hL : matchLoose (normMsg userMessage)
    · right
      simp [hL]
    · left
      simp [hL]

set_option maxRecDepth 16384 in
set_option maxHeartbeats 1000000 in
/-- Claim C7 witness: last_class "toaster" is absent from the battery
store; the reply to an unrelated message equals the context-free reply and
is the terminal fallback. -/
theorem chat_absent_class_falls_through_witness :
    List.lookup "toaster" batteryRules = none ∧
    generate_chat_reply batteryRules "zzz qqq" (some "toaster") none =
      generate_chat_reply batteryRules "zzz qqq" none none ∧
    generate_chat_reply batteryRules "zzz qqq" (some "toaster") none = fallbackReply := by
  have h := chat_absent_class_falls_through batteryRules "zzz qqq" none "toaster" (by decide)
  exact ⟨by decide, h.1, h.1.trans (by decide)⟩

set_option maxRecDepth 16384 in
set_option maxHeartbeats 1000000 in
/-- Claim C8: generate_chat_reply is total: every combination of message
and context produces a nonempty reply string, because the cascade ends in a
branch that always answers. -/
theorem chat_reply_total_nonempty (rules : RuleStore) (userMessage : String)
    (lastClass lastName : Option String) :
    0 < (generate_chat_reply rules userMessage lastClass lastName).length := by
  unfold generate_chat_reply
  dsimp only
  repeat' split
  all_goals first
    | exact greetingReply_len _
    | exact contextReply_len _ _ _ _
    | decide

/-- Claim C9: every message whose normalised form contains "hi" anywhere,
including inside words such as "this", returns a greeting reply regardless
of other keywords or context, so the context branch responder for "what is
this" is unreachable for any message containing "this". -/
theorem chat_hi_greets (rules : RuleStore) (userMessage : String)
    (lastClass lastName : Option String)
    (h : containsStr (normMsg userMessage) "hi" = true ∨
         containsStr (normMsg userMessage) "this" = true) :
    generate_chat_reply rules userMessage lastClass lastName = greetingReply lastName ∧
    ∀ nm ct, generate_chat_reply rules userMessage lastClass lastName ≠ whatIsThisReply nm ct := by
  have hhi : containsStr (normMsg userMessage) "hi" = true := by
    rcases h with h | h
    · exact h
    · exact containsStr_mono (normMsg userMessage) "hi" "this" (by decide) h
  have hg : matchGreeting (normMsg userMessage) = true := matchGreeting_of_hi _ hhi
  have he : generate_chat_reply rules userMessage lastClass lastName = greetingReply lastName := by
    unfold generate_chat_reply
    dsimp only
    simp [hg]
  refine ⟨he, fun nm ct => ?_⟩
  rw [he]
  exact greeting_ne_whatIsThis lastName nm ct

/-- Claim C9 witness: the message "what is this" with a remembered battery
item gets the generic greeting, not the "what is this" context answer. -/
theorem chat_hi_greets_witness :
    containsStr (normMsg "what is this") "this" = true ∧
    generate_chat_reply batteryRules "what is this" (some "battery") none = greetGeneric := by
  have h := chat_hi_greets batteryRules "what is this" (some "battery") none (Or.inr (by decide))
  exact ⟨by decide, h.1.trans (by decide)⟩

end EwasteBot
